import Mathlib

/-!
Shallow embedding of `src/src/Python/ccpi/fista/FISTAReconstructor.py`
(CCPi-FISTA_Reconstruction).

Numpy `float` arithmetic is modelled by exact real numbers; numpy arrays are
modelled by a shape (list of dimensions) together with a total data function
from index lists to reals.  The external ASTRA projector (forward projection
`astra.creators.create_sino3d_gpu` and back-projection
`astra.creators.create_backprojection3d_gpu`) is an external collaborator and
is abstracted as a pair of functions; `numpy.random.rand` is abstracted as an
oracle from a shape to a data function.  The `astra.matlab.data3d('delete', …)`
calls manage projector-side buffers and have no effect on the computed values,
so they have no counterpart in the pure model.
-/

namespace CCPiFista

/-- Model of a numpy ndarray: a shape and a total data function on index
lists.  Out-of-range indices are irrelevant; all operations only read indices
enumerated from the shape. -/
structure NDArr where
  shape : List Nat
  data : List Nat → ℝ

/-- Total number of elements (`ndarray.size`), the product of the shape. -/
def ndSize (a : NDArr) : Nat := a.shape.prod

/-- All valid index lists of a given shape, in row-major order. -/
def allIx : List Nat → List (List Nat)
  | [] => [[]]
  | d :: ds => (List.range d).flatMap fun i => (allIx ds).map fun ix => i :: ix

/-- `numpy.linalg.norm`: the Euclidean (Frobenius) norm of all entries. -/
noncomputable def euclNorm (a : NDArr) : ℝ :=
  Real.sqrt (((allIx a.shape).map fun ix => (a.data ix) ^ 2).sum)

/-- `numpy.sqrt` applied elementwise. -/
noncomputable def ndSqrt (a : NDArr) : NDArr :=
  ⟨a.shape, fun ix => Real.sqrt (a.data ix)⟩

/-- `a[0]`: indexing the first axis at 0, dropping that axis. -/
def ndIndex0 (a : NDArr) : NDArr :=
  ⟨a.shape.tail, fun ix => a.data (0 :: ix)⟩

/-- Elementwise product `w * y` with numpy trailing-axes broadcasting of the
lower-rank factor `w` over the leading axes of `y` (the only broadcasting
pattern the source exercises: a 2-D `sqweight` times a 3-D sinogram). -/
def broadcastMul (w y : NDArr) : NDArr :=
  ⟨y.shape, fun ix => w.data (ix.drop (y.shape.length - w.shape.length)) * y.data ix⟩

/-- Elementwise division of an array by a scalar (`x1 / s`). -/
noncomputable def divScalar (a : NDArr) (s : ℝ) : NDArr :=
  ⟨a.shape, fun ix => a.data ix / s⟩

/-- `numpy.ones(shape)`. -/
def ndOnes (shape : List Nat) : NDArr := ⟨shape, fun _ => 1⟩

/-- The projection-geometry dictionary fields the source reads or writes. -/
structure ProjGeom where
  type : String
  DetectorRowCount : Nat
  DetectorColCount : Nat

/-- The volume-geometry dictionary fields the source reads or writes. -/
structure VolGeom where
  GridColCount : Nat
  GridRowCount : Nat
  GridSliceCount : Nat

/-- The external ASTRA projector pair, abstracted: forward projection
(`create_sino3d_gpu`, volume to sinogram) and back-projection
(`create_backprojection3d_gpu`, sinogram to volume).  The integer handles the
real calls also return are resource ids and never influence computed data. -/
structure Astra where
  create_sino3d : NDArr → ProjGeom → VolGeom → NDArr
  create_backprojection3d : NDArr → ProjGeom → VolGeom → NDArr

/-- Oracle for `numpy.random.rand`: given the requested shape, produce the
data function of the random array. -/
def RandOracle : Type := List Nat → List Nat → ℝ

/-- Observable events of one estimator run: each forward-projection call, each
back-projection call (with the exact array and geometries passed), and each
computed iterate norm `s`. -/
inductive Ev where
  | fwd (x : NDArr) (pg : ProjGeom) (vg : VolGeom)
  | bwd (y : NDArr) (pg : ProjGeom) (vg : VolGeom)
  | nrm (s : ℝ)

/-- Number of norm events (= number of executed power iterations). -/
def normCount : List Ev → Nat
  | [] => 0
  | Ev.nrm _ :: es => normCount es + 1
  | _ :: es => normCount es

/-- The geometries carried by a projector-call event. -/
def evGeoms : Ev → Option (ProjGeom × VolGeom)
  | Ev.fwd _ pg vg => some (pg, vg)
  | Ev.bwd _ pg vg => some (pg, vg)
  | Ev.nrm _ => none

/-- The first forward-projection event of a trace. -/
def firstFwd : List Ev → Option (NDArr × ProjGeom × VolGeom)
  | [] => none
  | Ev.fwd x pg vg :: _ => some (x, pg, vg)
  | _ :: es => firstFwd es

/-- Loop body of the parallel-geometry branch (source lines 172-213), with an
event trace.  Per iteration: forward-project `x1`, multiply by `sqweight`
(line 186), back-project `sqweight * y` (line 196), take the norm (line 202),
normalize (line 204). -/
noncomputable def parallelLoop (astra : Astra) (pgT : ProjGeom) (vgT : VolGeom)
    (sqweight : NDArr) : Nat → NDArr → ℝ → List Ev → NDArr × ℝ × List Ev
  | 0, x1, s, tr => (x1, s, tr)
  | n + 1, x1, s, tr =>
    let y0 := astra.create_sino3d x1 pgT vgT
    let y := broadcastMul sqweight y0
    let bin := broadcastMul sqweight y
    let x1' := astra.create_backprojection3d bin pgT vgT
    let s' := euclNorm x1'
    parallelLoop astra pgT vgT sqweight n (divScalar x1' s') s'
      (tr ++ [Ev.fwd x1 pgT vgT, Ev.bwd bin pgT vgT, Ev.nrm s'])

/-- Loop body of the divergent-geometry branch (source lines 232-250), with an
event trace.  Per iteration: back-project `sqweight * y` (line 234), take the
norm (line 237), normalize (line 239), forward-project (line 242), reweight
(line 246). -/
noncomputable def divergentLoop (astra : Astra) (pg : ProjGeom) (vg : VolGeom)
    (sqweight : NDArr) : Nat → NDArr → NDArr → ℝ → List Ev → NDArr × NDArr × ℝ × List Ev
  | 0, x1, y, s, tr => (x1, y, s, tr)
  | n + 1, x1, y, s, tr =>
    let bin := broadcastMul sqweight y
    let x1' := astra.create_backprojection3d bin pg vg
    let s' := euclNorm x1'
    let x1'' := divScalar x1' s'
    let y0 := astra.create_sino3d x1'' pg vg
    let y' := broadcastMul sqweight y0
    divergentLoop astra pg vg sqweight n x1'' y' s'
      (tr ++ [Ev.bwd bin pg vg, Ev.nrm s', Ev.fwd x1'' pg vg])

/-- `calculateLipschitzConstantWithPowerMethod` (source lines 144-256),
instrumented with the event trace.  Returns the final `s` and the trace.

Parallel branch (lines 155-218): `niter = 5`, initial volume
`numpy.random.rand(1, N, N)`, `sqweight = numpy.sqrt(weights[0])`, and
temporary geometry copies with `DetectorRowCount = 1` and
`GridSliceCount = 1`.

Divergent branch (lines 219-253): `niter = 8`, initial volume
`numpy.random.rand(SlicesZ, N, N)`, `sqweight = numpy.sqrt(weights[0])`
(note: `weights[0]`, not the full `weights` of the MATLAB original quoted in
the comment on line 224), one forward projection and reweighting before the
loop (lines 227-228), unmodified geometries. -/
noncomputable def calculateLipschitzRun (astra : Astra) (rand : RandOracle)
    (proj_geom : ProjGeom) (vol_geom : VolGeom) (weights : NDArr)
    (SlicesZ : Nat) : ℝ × List Ev :=
  let N := vol_geom.GridColCount
  if proj_geom.type = "parallel" ∨ proj_geom.type = "parallel3d" then
    let niter := 5
    let x1 : NDArr := ⟨[1, N, N], rand [1, N, N]⟩
    let sqweight := ndSqrt (ndIndex0 weights)
    let proj_geomT := { proj_geom with DetectorRowCount := 1 }
    let vol_geomT := { vol_geom with GridSliceCount := 1 }
    let r := parallelLoop astra proj_geomT vol_geomT sqweight niter x1 0 []
    (r.2.1, r.2.2)
  else
    let niter := 8
    let x1 : NDArr := ⟨[SlicesZ, N, N], rand [SlicesZ, N, N]⟩
    let sqweight := ndSqrt (ndIndex0 weights)
    let y := broadcastMul sqweight (astra.create_sino3d x1 proj_geom vol_geom)
    let r := divergentLoop astra proj_geom vol_geom sqweight niter x1 y 0
      [Ev.fwd x1 proj_geom vol_geom]
    (r.2.2.1, r.2.2.2)

/-- The value `calculateLipschitzConstantWithPowerMethod` returns (the last
computed norm `s`, source line 256). -/
noncomputable def calculateLipschitzConstantWithPowerMethod (astra : Astra)
    (rand : RandOracle) (proj_geom : ProjGeom) (vol_geom : VolGeom)
    (weights : NDArr) (SlicesZ : Nat) : ℝ :=
  (calculateLipschitzRun astra rand proj_geom vol_geom weights SlicesZ).1

/-! ### The constructor `FISTAReconstructor.__init__` (source lines 76-139) -/

/-- Python values the constructor stores into `self.pars` or receives as
keyword arguments. -/
inductive PyVal where
  | pynone
  | pyint (n : ℤ)
  | pyfloat (x : ℝ)
  | pybool (b : Bool)
  | pyarr (a : NDArr)
  | pyprojGeom (g : ProjGeom)
  | pyvolGeom (g : VolGeom)
  | pyroi (s : List Nat → Prop)
  | pyobj (tag : String)

/-- Python exceptions the constructor can raise. -/
inductive PyErr where
  | valueError (msg : String)

/-- The `self.pars` dictionary. -/
def Pars : Type := String → Option PyVal

/-- Keyword arguments: a lookup from keyword name to value (`**kwargs`). -/
def Kwargs : Type := String → Option PyVal

/-- Dictionary update `d[k] = v`. -/
def setKey (p : Pars) (k : String) (v : PyVal) : Pars :=
  fun k' => if k' = k then some v else p k'

/-- Adding one keyword argument to a keyword map. -/
def insertKw (kwargs : Kwargs) (key : String) (v : PyVal) : Kwargs :=
  fun k => if k = key then some v else kwargs k

/-- The tuple `kw` of accepted input keywords (source lines 92-100). -/
def kwAccepted : List String :=
  ["number_of_iterations", "Lipschitz_constant", "ideal_image", "weights",
   "region_of_interest", "initialize", "regularizer", "ring_lambda_R_L1",
   "ring_alpha"]

/-- The obligatory parameters (source lines 79-82). -/
def initBase (projector_geometry : ProjGeom) (output_geometry : VolGeom)
    (input_sinogram : NDArr) : Pars :=
  fun k =>
    if k = "projector_geometry" then some (PyVal.pyprojGeom projector_geometry)
    else if k = "output_geometry" then some (PyVal.pyvolGeom output_geometry)
    else if k = "input_sinogram" then some (PyVal.pyarr input_sinogram)
    else none

/-- Storing the unpacked sinogram shape (source lines 84-86). -/
def setShapeCounts (p : Pars) (detectors nangles sliceZ : Nat) : Pars :=
  setKey (setKey (setKey p "detectors" (PyVal.pyint detectors))
      "number_og_angles" (PyVal.pyint nangles))
    "SlicesZ" (PyVal.pyint sliceZ)

/-- The keyword loop (source lines 103-107): every keyword argument whose name
is in `kwAccepted` is stored; all others are ignored. -/
def applyKwargs (kwargs : Kwargs) (p : Pars) : Pars :=
  fun k =>
    match kwargs k with
    | some v => if kwAccepted.contains k then some v else p k
    | none => p k

/-- Default for `number_of_iterations` (source lines 110-113). -/
def setIterDefault (kwargs : Kwargs) (p : Pars) : Pars :=
  match kwargs "number_of_iterations" with
  | some v => setKey p "number_of_iterations" v
  | none => setKey p "number_of_iterations" (PyVal.pyint 40)

/-- Default for `weights` (source lines 114-117): ones of the sinogram's
shape. -/
def setWeightsDefault (kwargs : Kwargs) (input_sinogram : NDArr) (p : Pars) : Pars :=
  match kwargs "weights" with
  | some v => setKey p "weights" v
  | none => setKey p "weights" (PyVal.pyarr (ndOnes input_sinogram.shape))

/-- Reading `self.pars['weights']` as an array inside the power method.  The
stored value is an array on every path the claims exercise; any other value
would only fail later inside numpy. -/
def optToArr : Option PyVal → NDArr
  | some (PyVal.pyarr a) => a
  | _ => ⟨[], fun _ => 0⟩

/-- `Lipschitz_constant` handling (source lines 118-121): the supplied value
is stored, otherwise the power method runs on the stored weights and its
result is stored. -/
noncomputable def setLipschitz (astra : Astra) (rand : RandOracle)
    (projector_geometry : ProjGeom) (output_geometry : VolGeom)
    (sliceZ : Nat) (kwargs : Kwargs) (p : Pars) : Pars :=
  match kwargs "Lipschitz_constant" with
  | some v => setKey p "Lipschitz_constant" v
  | none =>
      setKey p "Lipschitz_constant"
        (PyVal.pyfloat (calculateLipschitzConstantWithPowerMethod astra rand
          projector_geometry output_geometry (optToArr (p "weights")) sliceZ))

/-- Default for `ideal_image` (source lines 123-124). -/
def setIdealDefault (kwargs : Kwargs) (p : Pars) : Pars :=
  match kwargs "ideal_image" with
  | some _ => p
  | none => setKey p "ideal_image" PyVal.pynone

/-- The `region_of_interest` block (source lines 126-130).  The guard is
`if self.pars['ideal_image'] == None:`.  With `None` stored, the comparison is
`True` and the branch passes.  With a numpy array stored, `arr == None` is an
elementwise comparison producing an all-`False` array; using it as the `if`
condition raises `ValueError` when the array has more than one element, and is
falsy otherwise (this code predates numpy versions that also reject the empty
array), so the `else` branch derives the region of interest as
`numpy.nonzero(arr > 0.0)`.  Other stored value types compare unequal to
`None` and are not modelled (no claim exercises them). -/
def roiStep (kwargs : Kwargs) (p : Pars) : Except PyErr Pars :=
  match kwargs "region_of_interest" with
  | some _ => Except.ok p
  | none =>
    match p "ideal_image" with
    | some PyVal.pynone => Except.ok p
    | some (PyVal.pyarr a) =>
        if 1 < ndSize a then
          Except.error (PyErr.valueError
            "The truth value of an array with more than one element is ambiguous")
        else
          Except.ok (setKey p "region_of_interest"
            (PyVal.pyroi (fun ix => 0 < a.data ix)))
    | _ => Except.ok p

/-- The `regularizer` block (source lines 132-139): without the keyword the
regularizer is set to `None`; with it, the ring parameters get their defaults
when absent. -/
def regularizerStep (kwargs : Kwargs) (p : Pars) : Pars :=
  match kwargs "regularizer" with
  | none => setKey p "regularizer" PyVal.pynone
  | some _ =>
      let p1 :=
        match kwargs "ring_lambda_R_L1" with
        | some _ => p
        | none => setKey p "ring_lambda_R_L1" (PyVal.pyint 0)
      match kwargs "ring_alpha" with
      | some _ => p1
      | none => setKey p1 "ring_alpha" (PyVal.pyint 1)

/-- The part of `__init__` after the successful shape unpacking (source lines
84-139), in source order. -/
noncomputable def initParsCore (astra : Astra) (rand : RandOracle)
    (projector_geometry : ProjGeom) (output_geometry : VolGeom)
    (input_sinogram : NDArr) (detectors nangles sliceZ : Nat)
    (kwargs : Kwargs) : Except PyErr Pars :=
  let p0 := initBase projector_geometry output_geometry input_sinogram
  let p1 := setShapeCounts p0 detectors nangles sliceZ
  let p2 := applyKwargs kwargs p1
  let p3 := setIterDefault kwargs p2
  let p4 := setWeightsDefault kwargs input_sinogram p3
  let p5 := setLipschitz astra rand projector_geometry output_geometry sliceZ kwargs p4
  let p6 := setIdealDefault kwargs p5
  match roiStep kwargs p6 with
  | Except.error e => Except.error e
  | Except.ok p7 => Except.ok (regularizerStep kwargs p7)

/-- `FISTAReconstructor.__init__` (source lines 76-139): builds `self.pars`.
Unpacking `numpy.shape(input_sinogram)` into three names (source line 83)
raises `ValueError` unless the sinogram is exactly 3-dimensional. -/
noncomputable def initPars (astra : Astra) (rand : RandOracle)
    (projector_geometry : ProjGeom) (output_geometry : VolGeom)
    (input_sinogram : NDArr) (kwargs : Kwargs) : Except PyErr Pars :=
  match input_sinogram.shape with
  | [detectors, nangles, sliceZ] =>
    initParsCore astra rand projector_geometry output_geometry input_sinogram
      detectors nangles sliceZ kwargs
  | _ => Except.error (PyErr.valueError "not enough values to unpack")

/-- Looking a key up in the constructed `pars` (or `none` when construction
raised). -/
noncomputable def initLookup (astra : Astra) (rand : RandOracle)
    (projector_geometry : ProjGeom) (output_geometry : VolGeom)
    (input_sinogram : NDArr) (kwargs : Kwargs) (k : String) : Option PyVal :=
  match initPars astra rand projector_geometry output_geometry input_sinogram kwargs with
  | Except.ok p => p k
  | Except.error _ => none

/-- Whether construction completed without raising. -/
def succeeded : Except PyErr Pars → Bool
  | Except.ok _ => true
  | Except.error _ => false

/-! ### Concrete instances used to evaluate the definitions -/

/-- A trivial projector pair (forward and backward both the identity map); a
legitimate synthetic stand-in for a linear operator pair. -/
def astraTriv : Astra := ⟨fun x _ _ => x, fun y _ _ => y⟩

/-- A deterministic stand-in for `numpy.random.rand`: every entry is 1. -/
def randConst : RandOracle := fun _ _ => 1

/-- A divergent (cone-beam) projection geometry. -/
def pgCone : ProjGeom := ⟨"cone", 2, 1⟩

/-- A parallel projection geometry. -/
def pgPar : ProjGeom := ⟨"parallel", 2, 1⟩

/-- A 1×1×1 volume geometry (`GridColCount = 1`). -/
def vgUnit : VolGeom := ⟨1, 1, 1⟩

/-- All-zero weights of shape (2, 1, 1): non-negative, hence valid per the
spec's constraint on weights. -/
def wZero : NDArr := ⟨[2, 1, 1], fun _ => 0⟩

/-- Weights of shape (2, 1, 1) whose first detector row is 0 and second is 1. -/
def wRows : NDArr := ⟨[2, 1, 1], fun ix => if ix.headD 0 = 0 then 0 else 1⟩

/-- An all-ones sinogram-shaped array of shape (2, 1, 1). -/
def yOnes : NDArr := ⟨[2, 1, 1], fun _ => 1⟩

/-- A 3-dimensional zero sinogram of shape (1, 1, 1). -/
def sino111 : NDArr := ⟨[1, 1, 1], fun _ => 0⟩

/-- A 3-dimensional zero sinogram of shape (2, 2, 2). -/
def sino222 : NDArr := ⟨[2, 2, 2], fun _ => 0⟩

/-- A 2-dimensional array (not a valid sinogram for the constructor). -/
def sino22 : NDArr := ⟨[2, 2], fun _ => 0⟩

/-- Weights of shape (2, 2, 1): a shape mismatch against `sino222`. -/
def wBad : NDArr := ⟨[2, 2, 1], fun _ => 1⟩

/-- An ideal image with more than one element (shape (2, 1, 1), all ones). -/
def idealArr : NDArr := ⟨[2, 1, 1], fun _ => 1⟩

/-- The empty keyword map. -/
def kwEmpty : Kwargs := fun _ => none

/-- Keywords for the shape-mismatch scenario: mismatched `weights` plus a
supplied `Lipschitz_constant`. -/
def kwMismatch : Kwargs :=
  insertKw (insertKw kwEmpty "weights" (PyVal.pyarr wBad))
    "Lipschitz_constant" (PyVal.pyfloat 5)

/-- Keywords supplying only a `Lipschitz_constant`. -/
def kwLip : Kwargs := insertKw kwEmpty "Lipschitz_constant" (PyVal.pyfloat 5)

/-- Keywords supplying an `ideal_image` with more than one element (and a
`Lipschitz_constant`, irrelevant to the guard). -/
def kwIdeal : Kwargs := insertKw kwLip "ideal_image" (PyVal.pyarr idealArr)

/-- The same keywords with an explicit `region_of_interest` added. -/
def kwIdealRoi : Kwargs :=
  insertKw kwIdeal "region_of_interest" (PyVal.pyroi (fun _ => True))

/-- Keywords supplying a regularizer handle (and a `Lipschitz_constant`) but
no ring options. -/
def kwReg : Kwargs := insertKw kwLip "regularizer" (PyVal.pyobj "regularizer_handle")

/-! ### Helper lemmas -/

theorem euclNorm_nonneg (a : NDArr) : 0 ≤ euclNorm a := Real.sqrt_nonneg _

theorem euclNorm_of_zero (a : NDArr) (h : ∀ ix, a.data ix = 0) : euclNorm a = 0 := by
  unfold euclNorm
  have hs : ((allIx a.shape).map fun ix => (a.data ix) ^ 2).sum = 0 := by
    apply List.sum_eq_zero
    intro x hx
    rcases List.mem_map.mp hx with ⟨ix, _, rfl⟩
    simp [h ix]
  rw [hs, Real.sqrt_zero]

theorem broadcastMul_zero (w y : NDArr) (hw : ∀ ix, w.data ix = 0) (ix : List Nat) :
    (broadcastMul w y).data ix = 0 := by
  simp [broadcastMul, hw]

/-- Back-projections of pointwise-zero sinograms are pointwise zero; satisfied
by any linear back-projector, in particular by `astraTriv`. -/
def ZeroPreserving (astra : Astra) : Prop :=
  ∀ y pg vg, (∀ ix, y.data ix = 0) →
    ∀ ix, (astra.create_backprojection3d y pg vg).data ix = 0

theorem astraTriv_zeroPreserving : ZeroPreserving astraTriv := fun _ _ _ h => h

theorem divergentLoop_zero (astra : Astra) (pg : ProjGeom) (vg : VolGeom)
    (sqw : NDArr) (hs : ∀ ix, sqw.data ix = 0) (hb : ZeroPreserving astra) :
    ∀ (n : Nat) (x1 y : NDArr) (tr : List Ev),
      (divergentLoop astra pg vg sqw n x1 y 0 tr).2.2.1 = 0 := by
  intro n
  induction n with
  | zero => intro x1 y tr; simp [divergentLoop]
  | succ m ih =>
    intro x1 y tr
    have hz : euclNorm (astra.create_backprojection3d (broadcastMul sqw y) pg vg) = 0 :=
      euclNorm_of_zero _ (hb _ _ _ (broadcastMul_zero sqw y hs))
    simp only [divergentLoop]
    rw [hz]
    exact ih _ _ _

theorem parallelLoop_zero (astra : Astra) (pgT : ProjGeom) (vgT : VolGeom)
    (sqw : NDArr) (hs : ∀ ix, sqw.data ix = 0) (hb : ZeroPreserving astra) :
    ∀ (n : Nat) (x1 : NDArr) (tr : List Ev),
      (parallelLoop astra pgT vgT sqw n x1 0 tr).2.1 = 0 := by
  intro n
  induction n with
  | zero => intro x1 tr; simp [parallelLoop]
  | succ m ih =>
    intro x1 tr
    have hz : euclNorm (astra.create_backprojection3d
        (broadcastMul sqw (broadcastMul sqw (astra.create_sino3d x1 pgT vgT))) pgT vgT) = 0 :=
      euclNorm_of_zero _ (hb _ _ _ (broadcastMul_zero sqw _ hs))
    simp only [parallelLoop]
    rw [hz]
    exact ih _ _

theorem sqweight_zero (w : NDArr) (hw : ∀ ix, w.data ix = 0) :
    ∀ ix, (ndSqrt (ndIndex0 w)).data ix = 0 := by
  intro ix
  simp [ndSqrt, ndIndex0, hw]

theorem calcLip_of_zero_weights (astra : Astra) (rand : RandOracle)
    (pg : ProjGeom) (vg : VolGeom) (w : NDArr) (z : Nat)
    (hw : ∀ ix, w.data ix = 0) (hb : ZeroPreserving astra) :
    calculateLipschitzConstantWithPowerMethod astra rand pg vg w z = 0 := by
  unfold calculateLipschitzConstantWithPowerMethod calculateLipschitzRun
  by_cases hty : pg.type = "parallel" ∨ pg.type = "parallel3d"
  · rw [if_pos hty]
    exact parallelLoop_zero astra _ _ _ (sqweight_zero w hw) hb 5 _ _
  · rw [if_neg hty]
    dsimp only
    exact divergentLoop_zero astra _ _ _ (sqweight_zero w hw) hb 8 _ _ _

theorem divergentLoop_tr_sub (astra : Astra) (pg : ProjGeom) (vg : VolGeom)
    (sqw : NDArr) :
    ∀ (n : Nat) (x1 y : NDArr) (s : ℝ) (tr : List Ev) (e : Ev), e ∈ tr →
      e ∈ (divergentLoop astra pg vg sqw n x1 y s tr).2.2.2 := by
  intro n
  induction n with
  | zero => intro x1 y s tr e he; simpa [divergentLoop] using he
  | succ m ih =>
    intro x1 y s tr e he
    simp only [divergentLoop]
    exact ih _ _ _ _ _ (List.mem_append_left _ he)

theorem divergentLoop_nrm_zero_mem (astra : Astra) (pg : ProjGeom) (vg : VolGeom)
    (sqw : NDArr) (hs : ∀ ix, sqw.data ix = 0) (hb : ZeroPreserving astra)
    (n : Nat) (hn : 1 ≤ n) (x1 y : NDArr) (s : ℝ) (tr : List Ev) :
    Ev.nrm 0 ∈ (divergentLoop astra pg vg sqw n x1 y s tr).2.2.2 := by
  cases n with
  | zero => omega
  | succ m =>
    have hz : euclNorm (astra.create_backprojection3d (broadcastMul sqw y) pg vg) = 0 :=
      euclNorm_of_zero _ (hb _ _ _ (broadcastMul_zero sqw y hs))
    simp only [divergentLoop]
    rw [hz]
    apply divergentLoop_tr_sub
    simp

theorem divergentLoop_s_nonneg (astra : Astra) (pg : ProjGeom) (vg : VolGeom)
    (sqw : NDArr) :
    ∀ (n : Nat) (x1 y : NDArr) (s : ℝ) (tr : List Ev), 0 ≤ s →
      0 ≤ (divergentLoop astra pg vg sqw n x1 y s tr).2.2.1 := by
  intro n
  induction n with
  | zero => intro x1 y s tr hs; simpa [divergentLoop] using hs
  | succ m ih =>
    intro x1 y s tr _
    simp only [divergentLoop]
    exact ih _ _ _ _ (euclNorm_nonneg _)

theorem parallelLoop_s_nonneg (astra : Astra) (pgT : ProjGeom) (vgT : VolGeom)
    (sqw : NDArr) :
    ∀ (n : Nat) (x1 : NDArr) (s : ℝ) (tr : List Ev), 0 ≤ s →
      0 ≤ (parallelLoop astra pgT vgT sqw n x1 s tr).2.1 := by
  intro n
  induction n with
  | zero => intro x1 s tr hs; simpa [parallelLoop] using hs
  | succ m ih =>
    intro x1 s tr _
    simp only [parallelLoop]
    exact ih _ _ _ (euclNorm_nonneg _)

theorem normCount_append (l1 l2 : List Ev) :
    normCount (l1 ++ l2) = normCount l1 + normCount l2 := by
  induction l1 with
  | nil => simp [normCount]
  | cons e es ih => cases e <;> simp [normCount, ih] <;> try omega

theorem parallelLoop_normCount (astra : Astra) (pgT : ProjGeom) (vgT : VolGeom)
    (sqw : NDArr) :
    ∀ (n : Nat) (x1 : NDArr) (s : ℝ) (tr : List Ev),
      normCount (parallelLoop astra pgT vgT sqw n x1 s tr).2.2 = normCount tr + n := by
  intro n
  induction n with
  | zero => intro x1 s tr; simp [parallelLoop]
  | succ m ih =>
    intro x1 s tr
    simp only [parallelLoop]
    rw [ih, normCount_append]
    simp [normCount]
    omega

theorem divergentLoop_normCount (astra : Astra) (pg : ProjGeom) (vg : VolGeom)
    (sqw : NDArr) :
    ∀ (n : Nat) (x1 y : NDArr) (s : ℝ) (tr : List Ev),
      normCount (divergentLoop astra pg vg sqw n x1 y s tr).2.2.2 = normCount tr + n := by
  intro n
  induction n with
  | zero => intro x1 y s tr; simp [divergentLoop]
  | succ m ih =>
    intro x1 y s tr
    simp only [divergentLoop]
    rw [ih, normCount_append]
    simp [normCount]
    omega

theorem parallelLoop_geoms (astra : Astra) (pgT : ProjGeom) (vgT : VolGeom)
    (sqw : NDArr) :
    ∀ (n : Nat) (x1 : NDArr) (s : ℝ) (tr : List Ev),
      (∀ e ∈ tr, evGeoms e = some (pgT, vgT) ∨ evGeoms e = none) →
      ∀ e ∈ (parallelLoop astra pgT vgT sqw n x1 s tr).2.2,
        evGeoms e = some (pgT, vgT) ∨ evGeoms e = none := by
  intro n
  induction n with
  | zero => intro x1 s tr h; simpa [parallelLoop] using h
  | succ m ih =>
    intro x1 s tr h
    simp only [parallelLoop]
    apply ih
    intro e he
    rcases List.mem_append.mp he with h1 | h2
    · exact h e h1
    · simp only [List.mem_cons, List.not_mem_nil, or_false] at h2
      rcases h2 with rfl | rfl | rfl
      · exact Or.inl rfl
      · exact Or.inl rfl
      · exact Or.inr rfl

theorem divergentLoop_geoms (astra : Astra) (pg : ProjGeom) (vg : VolGeom)
    (sqw : NDArr) :
    ∀ (n : Nat) (x1 y : NDArr) (s : ℝ) (tr : List Ev),
      (∀ e ∈ tr, evGeoms e = some (pg, vg) ∨ evGeoms e = none) →
      ∀ e ∈ (divergentLoop astra pg vg sqw n x1 y s tr).2.2.2,
        evGeoms e = some (pg, vg) ∨ evGeoms e = none := by
  intro n
  induction n with
  | zero => intro x1 y s tr h; simpa [divergentLoop] using h
  | succ m ih =>
    intro x1 y s tr h
    simp only [divergentLoop]
    apply ih
    intro e he
    rcases List.mem_append.mp he with h1 | h2
    · exact h e h1
    · simp only [List.mem_cons, List.not_mem_nil, or_false] at h2
      rcases h2 with rfl | rfl | rfl
      · exact Or.inl rfl
      · exact Or.inr rfl
      · exact Or.inl rfl

theorem firstFwd_append (tr l : List Ev) (r : NDArr × ProjGeom × VolGeom)
    (h : firstFwd tr = some r) : firstFwd (tr ++ l) = some r := by
  induction tr with
  | nil => simp [firstFwd] at h
  | cons e es ih =>
    cases e with
    | fwd x pg vg => simpa [firstFwd] using h
    | bwd y pg vg => simp only [firstFwd, List.cons_append] at h ⊢; exact ih h
    | nrm s => simp only [firstFwd, List.cons_append] at h ⊢; exact ih h

theorem parallelLoop_firstFwd (astra : Astra) (pgT : ProjGeom) (vgT : VolGeom)
    (sqw : NDArr) :
    ∀ (n : Nat) (x1 : NDArr) (s : ℝ) (tr : List Ev) (r : NDArr × ProjGeom × VolGeom),
      firstFwd tr = some r →
      firstFwd (parallelLoop astra pgT vgT sqw n x1 s tr).2.2 = some r := by
  intro n
  induction n with
  | zero => intro x1 s tr r h; simpa [parallelLoop] using h
  | succ m ih =>
    intro x1 s tr r h
    simp only [parallelLoop]
    exact ih _ _ _ _ (firstFwd_append _ _ _ h)

theorem divergentLoop_firstFwd (astra : Astra) (pg : ProjGeom) (vg : VolGeom)
    (sqw : NDArr) :
    ∀ (n : Nat) (x1 y : NDArr) (s : ℝ) (tr : List Ev) (r : NDArr × ProjGeom × VolGeom),
      firstFwd tr = some r →
      firstFwd (divergentLoop astra pg vg sqw n x1 y s tr).2.2.2 = some r := by
  intro n
  induction n with
  | zero => intro x1 y s tr r h; simpa [divergentLoop] using h
  | succ m ih =>
    intro x1 y s tr r h
    simp only [divergentLoop]
    exact ih _ _ _ _ _ (firstFwd_append _ _ _ h)

theorem parallelLoop_firstFwd_nil (astra : Astra) (pgT : ProjGeom) (vgT : VolGeom)
    (sqw : NDArr) (n : Nat) (hn : 1 ≤ n) (x1 : NDArr) (s : ℝ) :
    firstFwd (parallelLoop astra pgT vgT sqw n x1 s []).2.2 = some (x1, pgT, vgT) := by
  cases n with
  | zero => omega
  | succ m =>
    simp only [parallelLoop]
    apply parallelLoop_firstFwd
    simp [firstFwd]

theorem parallelLoop_tr_sub (astra : Astra) (pgT : ProjGeom) (vgT : VolGeom)
    (sqw : NDArr) :
    ∀ (n : Nat) (x1 : NDArr) (s : ℝ) (tr : List Ev) (e : Ev), e ∈ tr →
      e ∈ (parallelLoop astra pgT vgT sqw n x1 s tr).2.2 := by
  intro n
  induction n with
  | zero => intro x1 s tr e he; simpa [parallelLoop] using he
  | succ m ih =>
    intro x1 s tr e he
    simp only [parallelLoop]
    exact ih _ _ _ _ (List.mem_append_left _ he)

theorem parallelLoop_nrm_zero_mem (astra : Astra) (pgT : ProjGeom) (vgT : VolGeom)
    (sqw : NDArr) (hs : ∀ ix, sqw.data ix = 0) (hb : ZeroPreserving astra)
    (n : Nat) (hn : 1 ≤ n) (x1 : NDArr) (s : ℝ) (tr : List Ev) :
    Ev.nrm 0 ∈ (parallelLoop astra pgT vgT sqw n x1 s tr).2.2 := by
  cases n with
  | zero => omega
  | succ m =>
    have hz : euclNorm (astra.create_backprojection3d
        (broadcastMul sqw (broadcastMul sqw (astra.create_sino3d x1 pgT vgT))) pgT vgT) = 0 :=
      euclNorm_of_zero _ (hb _ _ _ (broadcastMul_zero sqw _ hs))
    simp only [parallelLoop]
    rw [hz]
    apply parallelLoop_tr_sub
    simp

/-! ### Helper lemmas about the constructor stages -/

theorem setKey_self (p : Pars) (k : String) (v : PyVal) : setKey p k v k = some v := by
  simp [setKey]

theorem setKey_ne (p : Pars) (k : String) (v : PyVal) (k' : String) (h : k' ≠ k) :
    setKey p k v k' = p k' := by
  simp [setKey, h]

theorem applyKwargs_not_mem (kwargs : Kwargs) (p : Pars) (k : String)
    (h : ¬ k ∈ kwAccepted) : applyKwargs kwargs p k = p k := by
  cases hk : kwargs k <;> simp [applyKwargs, hk, h]

theorem applyKwargs_mem_some (kwargs : Kwargs) (p : Pars) (k : String) (v : PyVal)
    (h1 : kwargs k = some v) (h2 : k ∈ kwAccepted) :
    applyKwargs kwargs p k = some v := by
  simp [applyKwargs, h1, h2]

theorem applyKwargs_of_none (kwargs : Kwargs) (p : Pars) (k : String)
    (h : kwargs k = none) : applyKwargs kwargs p k = p k := by
  simp [applyKwargs, h]

theorem setIterDefault_ne (kwargs : Kwargs) (p : Pars) (k : String)
    (h : k ≠ "number_of_iterations") : setIterDefault kwargs p k = p k := by
  cases hk : kwargs "number_of_iterations" <;> simp [setIterDefault, hk, setKey, h]

theorem setWeightsDefault_ne (kwargs : Kwargs) (sino : NDArr) (p : Pars) (k : String)
    (h : k ≠ "weights") : setWeightsDefault kwargs sino p k = p k := by
  cases hk : kwargs "weights" <;> simp [setWeightsDefault, hk, setKey, h]

theorem setWeightsDefault_some (kwargs : Kwargs) (sino : NDArr) (p : Pars) (v : PyVal)
    (h : kwargs "weights" = some v) : setWeightsDefault kwargs sino p "weights" = some v := by
  simp [setWeightsDefault, h, setKey]

theorem setWeightsDefault_none (kwargs : Kwargs) (sino : NDArr) (p : Pars)
    (h : kwargs "weights" = none) :
    setWeightsDefault kwargs sino p "weights" = some (PyVal.pyarr (ndOnes sino.shape)) := by
  simp [setWeightsDefault, h, setKey]

theorem setLipschitz_ne (astra : Astra) (rand : RandOracle) (pg : ProjGeom)
    (vg : VolGeom) (z : Nat) (kwargs : Kwargs) (p : Pars) (k : String)
    (h : k ≠ "Lipschitz_constant") : setLipschitz astra rand pg vg z kwargs p k = p k := by
  cases hk : kwargs "Lipschitz_constant" <;> simp [setLipschitz, hk, setKey, h]

theorem setLipschitz_some (astra : Astra) (rand : RandOracle) (pg : ProjGeom)
    (vg : VolGeom) (z : Nat) (kwargs : Kwargs) (p : Pars) (v : PyVal)
    (h : kwargs "Lipschitz_constant" = some v) :
    setLipschitz astra rand pg vg z kwargs p "Lipschitz_constant" = some v := by
  simp [setLipschitz, h, setKey]

theorem setLipschitz_none (astra : Astra) (rand : RandOracle) (pg : ProjGeom)
    (vg : VolGeom) (z : Nat) (kwargs : Kwargs) (p : Pars)
    (h : kwargs "Lipschitz_constant" = none) :
    setLipschitz astra rand pg vg z kwargs p "Lipschitz_constant" =
      some (PyVal.pyfloat (calculateLipschitzConstantWithPowerMethod astra rand pg vg
        (optToArr (p "weights")) z)) := by
  simp [setLipschitz, h, setKey]

theorem setIdealDefault_ne (kwargs : Kwargs) (p : Pars) (k : String)
    (h : k ≠ "ideal_image") : setIdealDefault kwargs p k = p k := by
  cases hk : kwargs "ideal_image" <;> simp [setIdealDefault, hk, setKey, h]

theorem setIdealDefault_of_some (kwargs : Kwargs) (p : Pars) (v : PyVal)
    (h : kwargs "ideal_image" = some v) : setIdealDefault kwargs p = p := by
  simp [setIdealDefault, h]

theorem setIdealDefault_self_none (kwargs : Kwargs) (p : Pars)
    (h : kwargs "ideal_image" = none) :
    setIdealDefault kwargs p "ideal_image" = some PyVal.pynone := by
  simp [setIdealDefault, h, setKey]

theorem roiStep_ideal_pynone (kwargs : Kwargs) (p : Pars)
    (h : p "ideal_image" = some PyVal.pynone) : roiStep kwargs p = Except.ok p := by
  cases hr : kwargs "region_of_interest" <;> simp [roiStep, hr, h]

theorem roiStep_roi_some (kwargs : Kwargs) (p : Pars) (v : PyVal)
    (h : kwargs "region_of_interest" = some v) : roiStep kwargs p = Except.ok p := by
  simp [roiStep, h]

theorem roiStep_ambiguous (kwargs : Kwargs) (p : Pars) (a : NDArr)
    (hr : kwargs "region_of_interest" = none)
    (hi : p "ideal_image" = some (PyVal.pyarr a)) (hs : 1 < ndSize a) :
    roiStep kwargs p = Except.error (PyErr.valueError
      "The truth value of an array with more than one element is ambiguous") := by
  simp [roiStep, hr, hi, hs]

theorem roiStep_ok_ne (kwargs : Kwargs) (p q : Pars) (k : String)
    (h : roiStep kwargs p = Except.ok q) (hk : k ≠ "region_of_interest") : q k = p k := by
  unfold roiStep at h
  split at h
  · cases h; rfl
  · split at h
    · cases h; rfl
    · split at h
      · cases h
      · cases h; exact setKey_ne _ _ _ _ hk
    · cases h; rfl

theorem regularizerStep_ne (kwargs : Kwargs) (p : Pars) (k : String)
    (h1 : k ≠ "regularizer") (h2 : k ≠ "ring_lambda_R_L1") (h3 : k ≠ "ring_alpha") :
    regularizerStep kwargs p k = p k := by
  unfold regularizerStep
  cases hr : kwargs "regularizer"
  · simp [setKey, h1]
  · cases h4 : kwargs "ring_lambda_R_L1" <;> cases h5 : kwargs "ring_alpha" <;>
      simp [setKey, h1, h2, h3]

theorem regularizerStep_reg_none (kwargs : Kwargs) (p : Pars)
    (h : kwargs "regularizer" = none) :
    regularizerStep kwargs p = setKey p "regularizer" PyVal.pynone := by
  simp [regularizerStep, h]

theorem regularizerStep_ring_defaults (kwargs : Kwargs) (p : Pars) (v : PyVal)
    (hr : kwargs "regularizer" = some v) (h4 : kwargs "ring_lambda_R_L1" = none)
    (h5 : kwargs "ring_alpha" = none) :
    regularizerStep kwargs p "ring_lambda_R_L1" = some (PyVal.pyint 0)
    ∧ regularizerStep kwargs p "ring_alpha" = some (PyVal.pyint 1) := by
  unfold regularizerStep
  rw [hr, h4, h5]
  refine ⟨?_, ?_⟩ <;> simp [setKey]

theorem initPars_shape3 (astra : Astra) (rand : RandOracle) (pg : ProjGeom)
    (vg : VolGeom) (sino : NDArr) (kwargs : Kwargs) (d n z : Nat)
    (hshape : sino.shape = [d, n, z]) :
    initPars astra rand pg vg sino kwargs = initParsCore astra rand pg vg sino d n z kwargs := by
  unfold initPars
  rw [hshape]

theorem initPars_shape_err (astra : Astra) (rand : RandOracle) (pg : ProjGeom)
    (vg : VolGeom) (sino : NDArr) (kwargs : Kwargs)
    (hshape : sino.shape.length ≠ 3) :
    initPars astra rand pg vg sino kwargs =
      Except.error (PyErr.valueError "not enough values to unpack") := by
  unfold initPars
  rcases hs : sino.shape with _ | ⟨a, _ | ⟨b, _ | ⟨c, _ | ⟨e, tl⟩⟩⟩⟩
  · rfl
  · rfl
  · rfl
  · rw [hs] at hshape; simp at hshape
  · rfl

theorem initParsCore_ok_ideal_none (astra : Astra) (rand : RandOracle)
    (pg : ProjGeom) (vg : VolGeom) (sino : NDArr) (d n z : Nat) (kwargs : Kwargs)
    (h : kwargs "ideal_image" = none) :
    initParsCore astra rand pg vg sino d n z kwargs =
      Except.ok (regularizerStep kwargs (setIdealDefault kwargs
        (setLipschitz astra rand pg vg z kwargs (setWeightsDefault kwargs sino
          (setIterDefault kwargs (applyKwargs kwargs
            (setShapeCounts (initBase pg vg sino) d n z))))))) := by
  unfold initParsCore
  dsimp only
  rw [roiStep_ideal_pynone _ _ (setIdealDefault_self_none kwargs _ h)]

theorem initParsCore_ok_roi_some (astra : Astra) (rand : RandOracle)
    (pg : ProjGeom) (vg : VolGeom) (sino : NDArr) (d n z : Nat) (kwargs : Kwargs)
    (v : PyVal) (h : kwargs "region_of_interest" = some v) :
    initParsCore astra rand pg vg sino d n z kwargs =
      Except.ok (regularizerStep kwargs (setIdealDefault kwargs
        (setLipschitz astra rand pg vg z kwargs (setWeightsDefault kwargs sino
          (setIterDefault kwargs (applyKwargs kwargs
            (setShapeCounts (initBase pg vg sino) d n z))))))) := by
  unfold initParsCore
  dsimp only
  rw [roiStep_roi_some _ _ _ h]

theorem initParsCore_ambiguous (astra : Astra) (rand : RandOracle)
    (pg : ProjGeom) (vg : VolGeom) (sino : NDArr) (d n z : Nat) (kwargs : Kwargs)
    (a : NDArr) (hroi : kwargs "region_of_interest" = none)
    (hideal : kwargs "ideal_image" = some (PyVal.pyarr a)) (hsize : 1 < ndSize a) :
    initParsCore astra rand pg vg sino d n z kwargs =
      Except.error (PyErr.valueError
        "The truth value of an array with more than one element is ambiguous") := by
  unfold initParsCore
  dsimp only
  have hlook : (setIdealDefault kwargs (setLipschitz astra rand pg vg z kwargs
      (setWeightsDefault kwargs sino (setIterDefault kwargs (applyKwargs kwargs
        (setShapeCounts (initBase pg vg sino) d n z)))))) "ideal_image"
      = some (PyVal.pyarr a) := by
    rw [setIdealDefault_of_some _ _ _ hideal,
      setLipschitz_ne _ _ _ _ _ _ _ _ (by decide),
      setWeightsDefault_ne _ _ _ _ (by decide),
      setIterDefault_ne _ _ _ (by decide),
      applyKwargs_mem_some _ _ _ _ hideal (by decide)]
  rw [roiStep_ambiguous _ _ _ hroi hlook hsize]

/-! ### Claims -/

/-- Claim C1 (code bug): the claim says every measurement of the intermediate
sinogram is scaled by the square root of the weights entry corresponding to
that same measurement before back-projection.  In the divergent branch the
source computes `sqweight = numpy.sqrt(weights[0])` (line 225) and broadcasts
it, so every detector row is scaled with the square roots of the FIRST row's
weights.  At weights whose row 0 is 0 and row 1 is 1, and an all-ones
intermediate sinogram, the scaled entry at index (1,0,0) is 0, whereas
per-measurement scaling (the MATLAB original `sqrt(weights)` quoted in the
comment on line 224) would give 1. -/
theorem claimC1_divergent_weight_row0 :
    (broadcastMul (ndSqrt (ndIndex0 wRows)) yOnes).data [1, 0, 0] = 0
    ∧ Real.sqrt (wRows.data [1, 0, 0]) * yOnes.data [1, 0, 0] = 1 := by
  constructor
  · simp [broadcastMul, ndSqrt, ndIndex0, wRows, yOnes]
  · simp [wRows, yOnes]

/-- Claim C2 (amended): when a power iteration produces a zero-norm iterate
the estimator does not raise any error — the source has no degeneracy check
and no `NumericalDegeneracyError` — it performs the normalization division
unconditionally and completes.  Stated for inputs on which every
back-projected iterate is pointwise zero (all-zero weights and a
zero-preserving back-projector): a zero norm is recorded in the trace and the
estimator returns the value 0. -/
theorem claimC2_zero_norm_no_error (astra : Astra) (rand : RandOracle)
    (pg : ProjGeom) (vg : VolGeom) (w : NDArr) (z : Nat)
    (hw : ∀ ix, w.data ix = 0) (hb : ZeroPreserving astra) :
    Ev.nrm 0 ∈ (calculateLipschitzRun astra rand pg vg w z).2
    ∧ calculateLipschitzConstantWithPowerMethod astra rand pg vg w z = 0 := by
  constructor
  · unfold calculateLipschitzRun
    by_cases hty : pg.type = "parallel" ∨ pg.type = "parallel3d"
    · rw [if_pos hty]
      dsimp only
      exact parallelLoop_nrm_zero_mem astra _ _ _ (sqweight_zero w hw) hb 5
        (by norm_num) _ _ _
    · rw [if_neg hty]
      dsimp only
      exact divergentLoop_nrm_zero_mem astra _ _ _ (sqweight_zero w hw) hb 8
        (by norm_num) _ _ _ _
  · exact calcLip_of_zero_weights astra rand pg vg w z hw hb

/-- Witness for C2 at a concrete degenerate input. -/
theorem claimC2_witness :
    Ev.nrm 0 ∈ (calculateLipschitzRun astraTriv randConst pgCone vgUnit wZero 1).2
    ∧ calculateLipschitzConstantWithPowerMethod astraTriv randConst pgCone vgUnit wZero 1 = 0 :=
  claimC2_zero_norm_no_error astraTriv randConst pgCone vgUnit wZero 1
    (fun _ => rfl) astraTriv_zeroPreserving

/-- Counterexample to C2 as stated: at a concrete degenerate input (all-zero
weights, identity projector pair, cone geometry) a power iteration records a
zero-norm iterate, yet the estimator completes normally — performing the
normalization division — and returns the value 0 instead of raising a
`NumericalDegeneracyError` (no such error exists in the source). -/
theorem claimC2_counterexample :
    Ev.nrm 0 ∈ (calculateLipschitzRun astraTriv randConst pgCone vgUnit wZero 2).2
    ∧ calculateLipschitzConstantWithPowerMethod astraTriv randConst pgCone vgUnit wZero 2 = 0 := by
  constructor
  · unfold calculateLipschitzRun
    rw [if_neg (by decide)]
    dsimp only
    exact divergentLoop_nrm_zero_mem astraTriv _ _ _
      (sqweight_zero wZero (fun _ => rfl)) astraTriv_zeroPreserving 8
      (by norm_num) _ _ _ _
  · exact calcLip_of_zero_weights _ _ _ _ _ _ (fun _ => rfl) astraTriv_zeroPreserving

/-- Claim C3 (amended): the value returned by the power method is the
Euclidean norm computed in the last iteration, hence always nonnegative; it is
not in general strictly positive (see the counterexample with all-zero,
hence non-negative, weights). -/
theorem claimC3_lipschitz_nonneg (astra : Astra) (rand : RandOracle)
    (pg : ProjGeom) (vg : VolGeom) (w : NDArr) (z : Nat) :
    0 ≤ calculateLipschitzConstantWithPowerMethod astra rand pg vg w z := by
  unfold calculateLipschitzConstantWithPowerMethod calculateLipschitzRun
  by_cases hty : pg.type = "parallel" ∨ pg.type = "parallel3d"
  · rw [if_pos hty]
    exact parallelLoop_s_nonneg astra _ _ _ 5 _ 0 _ le_rfl
  · rw [if_neg hty]
    dsimp only
    exact divergentLoop_s_nonneg astra _ _ _ 8 _ _ 0 _ le_rfl

/-- Counterexample to C3 as stated: with all-zero weights (non-negative, so
valid under the claim's own constraint) and the identity projector pair, the
estimator returns 0, which is not strictly positive.  (In floating point the
run would produce NaN through 0/0, likewise neither positive nor finite.) -/
theorem claimC3_counterexample :
    ¬ (0 < calculateLipschitzConstantWithPowerMethod astraTriv randConst pgCone vgUnit wZero 3) := by
  have h0 : calculateLipschitzConstantWithPowerMethod astraTriv randConst pgCone vgUnit wZero 3 = 0 :=
    calcLip_of_zero_weights _ _ _ _ _ _ (fun _ => rfl) astraTriv_zeroPreserving
  rw [h0]
  exact lt_irrefl 0

/-- Claim C4: the power method performs exactly 5 iterations for parallel
geometry ('parallel' or 'parallel3d') and exactly 8 otherwise; in the parallel
branch every projector call uses temporary geometry copies with
`DetectorRowCount = 1` and `GridSliceCount = 1` and the iteration starts from
a random volume of shape (1, N, N); in the divergent branch every projector
call uses the unmodified geometries and the iteration starts from a random
volume of shape (SlicesZ, N, N). -/
theorem claimC4_iteration_structure (astra : Astra) (rand : RandOracle)
    (pg : ProjGeom) (vg : VolGeom) (w : NDArr) (z : Nat) :
    (pg.type = "parallel" ∨ pg.type = "parallel3d" →
      normCount (calculateLipschitzRun astra rand pg vg w z).2 = 5
      ∧ (∀ e ∈ (calculateLipschitzRun astra rand pg vg w z).2,
          evGeoms e = some ({ pg with DetectorRowCount := 1 },
            { vg with GridSliceCount := 1 }) ∨ evGeoms e = none)
      ∧ firstFwd (calculateLipschitzRun astra rand pg vg w z).2 =
          some (⟨[1, vg.GridColCount, vg.GridColCount],
            rand [1, vg.GridColCount, vg.GridColCount]⟩,
            { pg with DetectorRowCount := 1 }, { vg with GridSliceCount := 1 }))
    ∧ (¬ (pg.type = "parallel" ∨ pg.type = "parallel3d") →
      normCount (calculateLipschitzRun astra rand pg vg w z).2 = 8
      ∧ (∀ e ∈ (calculateLipschitzRun astra rand pg vg w z).2,
          evGeoms e = some (pg, vg) ∨ evGeoms e = none)
      ∧ firstFwd (calculateLipschitzRun astra rand pg vg w z).2 =
          some (⟨[z, vg.GridColCount, vg.GridColCount],
            rand [z, vg.GridColCount, vg.GridColCount]⟩, pg, vg)) := by
  constructor
  · intro hty
    unfold calculateLipschitzRun
    rw [if_pos hty]
    dsimp only
    refine ⟨?_, ?_, ?_⟩
    · rw [parallelLoop_normCount]
      simp [normCount]
    · exact parallelLoop_geoms astra _ _ _ 5 _ 0 [] (by simp)
    · exact parallelLoop_firstFwd_nil astra _ _ _ 5 (by norm_num) _ 0
  · intro hty
    unfold calculateLipschitzRun
    rw [if_neg hty]
    dsimp only
    refine ⟨?_, ?_, ?_⟩
    · rw [divergentLoop_normCount]
      simp [normCount]
    · refine divergentLoop_geoms astra _ _ _ 8 _ _ 0 _ ?_
      intro e he
      simp only [List.mem_singleton] at he
      subst he
      exact Or.inl rfl
    · exact divergentLoop_firstFwd astra _ _ _ 8 _ _ 0 _ _ rfl

/-- Witness for C4: both branches at concrete geometries. -/
theorem claimC4_witness :
    (pgPar.type = "parallel" ∨ pgPar.type = "parallel3d")
    ∧ normCount (calculateLipschitzRun astraTriv randConst pgPar vgUnit wZero 2).2 = 5
    ∧ ¬ (pgCone.type = "parallel" ∨ pgCone.type = "parallel3d")
    ∧ normCount (calculateLipschitzRun astraTriv randConst pgCone vgUnit wZero 2).2 = 8 :=
  ⟨Or.inl rfl,
   ((claimC4_iteration_structure astraTriv randConst pgPar vgUnit wZero 2).1 (Or.inl rfl)).1,
   by decide,
   ((claimC4_iteration_structure astraTriv randConst pgCone vgUnit wZero 2).2 (by decide)).1⟩

/-- Claim C5 (amended): construction never compares the shapes of the
sinogram and the weights — there is no `ConfigurationError` anywhere in the
source.  With any 3-D sinogram, any supplied weights array of any shape, a
supplied Lipschitz constant and no ideal image, construction completes without
error and stores the mismatched weights unchanged. -/
theorem claimC5_no_shape_check (astra : Astra) (rand : RandOracle)
    (pg : ProjGeom) (vg : VolGeom) (sino w : NDArr) (kwargs : Kwargs)
    (v : PyVal) (d n z : Nat) (hshape : sino.shape = [d, n, z])
    (hw : kwargs "weights" = some (PyVal.pyarr w))
    (hL : kwargs "Lipschitz_constant" = some v)
    (hi : kwargs "ideal_image" = none) :
    succeeded (initPars astra rand pg vg sino kwargs) = true
    ∧ initLookup astra rand pg vg sino kwargs "weights" = some (PyVal.pyarr w) := by
  have hcore := initParsCore_ok_ideal_none astra rand pg vg sino d n z kwargs hi
  constructor
  · rw [initPars_shape3 _ _ _ _ _ _ _ _ _ hshape, hcore]
    rfl
  · unfold initLookup
    rw [initPars_shape3 _ _ _ _ _ _ _ _ _ hshape, hcore]
    dsimp only
    rw [regularizerStep_ne _ _ _ (by decide) (by decide) (by decide),
      setIdealDefault_ne _ _ _ (by decide),
      setLipschitz_ne _ _ _ _ _ _ _ _ (by decide),
      setWeightsDefault_some _ _ _ _ hw]

/-- Witness for C5 at a concrete shape mismatch: sinogram of shape (2,2,2),
weights of shape (2,2,1). -/
theorem claimC5_witness :
    sino222.shape = [2, 2, 2]
    ∧ (succeeded (initPars astraTriv randConst pgCone vgUnit sino222 kwMismatch) = true
       ∧ initLookup astraTriv randConst pgCone vgUnit sino222 kwMismatch "weights"
           = some (PyVal.pyarr wBad)) :=
  ⟨rfl, claimC5_no_shape_check astraTriv randConst pgCone vgUnit sino222 wBad
    kwMismatch (PyVal.pyfloat 5) 2 2 2 rfl rfl rfl rfl⟩

/-- Counterexample to C5 as stated: at the concrete mismatched input
(sinogram (2,2,2), weights (2,2,1), Lipschitz constant supplied) construction
succeeds with no error of any kind — in particular no ConfigurationError — and
the mismatched weights are stored. -/
theorem claimC5_counterexample :
    succeeded (initPars astraTriv randConst pgPar vgUnit sino222 kwMismatch) = true
    ∧ initLookup astraTriv randConst pgPar vgUnit sino222 kwMismatch "weights"
        = some (PyVal.pyarr wBad) := by
  have hcore := initParsCore_ok_ideal_none astraTriv randConst pgPar vgUnit sino222
    2 2 2 kwMismatch rfl
  constructor
  · rw [initPars_shape3 _ _ _ _ _ _ _ _ _ rfl, hcore]
    rfl
  · unfold initLookup
    rw [initPars_shape3 _ _ _ _ _ _ _ _ _ rfl, hcore]
    dsimp only
    rw [regularizerStep_ne _ _ _ (by decide) (by decide) (by decide),
      setIdealDefault_ne _ _ _ (by decide),
      setLipschitz_ne _ _ _ _ _ _ _ _ (by decide),
      setWeightsDefault_some _ _ _ _ rfl]

/-- Claim C6: when no `Lipschitz_constant` keyword is supplied the constructor
invokes the power-method estimator on the stored weights and caches its result
in `pars['Lipschitz_constant']`; when one is supplied, that value is stored
and the estimator is not invoked (the constructed parameter set is independent
of the projector and of the random oracle). -/
theorem claimC6_lipschitz_cached (astra astra' : Astra) (rand rand' : RandOracle)
    (pg : ProjGeom) (vg : VolGeom) (sino : NDArr) (kwargs : Kwargs) (d n z : Nat)
    (hshape : sino.shape = [d, n, z]) (hi : kwargs "ideal_image" = none) :
    (kwargs "Lipschitz_constant" = none →
      initLookup astra rand pg vg sino kwargs "Lipschitz_constant" =
        some (PyVal.pyfloat (calculateLipschitzConstantWithPowerMethod astra rand pg vg
          (optToArr (initLookup astra rand pg vg sino kwargs "weights")) z)))
    ∧ (∀ v, kwargs "Lipschitz_constant" = some v →
        initLookup astra rand pg vg sino kwargs "Lipschitz_constant" = some v
        ∧ initPars astra rand pg vg sino kwargs = initPars astra' rand' pg vg sino kwargs) := by
  have hcore := initParsCore_ok_ideal_none astra rand pg vg sino d n z kwargs hi
  constructor
  · intro hL
    unfold initLookup
    rw [initPars_shape3 _ _ _ _ _ _ _ _ _ hshape, hcore]
    dsimp only
    rw [regularizerStep_ne _ _ _ (by decide) (by decide) (by decide),
      setIdealDefault_ne _ _ _ (by decide),
      setLipschitz_none _ _ _ _ _ _ _ hL,
      regularizerStep_ne _ _ _ (by decide) (by decide) (by decide),
      setIdealDefault_ne _ _ _ (by decide),
      setLipschitz_ne _ _ _ _ _ _ _ _ (by decide)]
  · intro v hL
    constructor
    · unfold initLookup
      rw [initPars_shape3 _ _ _ _ _ _ _ _ _ hshape, hcore]
      dsimp only
      rw [regularizerStep_ne _ _ _ (by decide) (by decide) (by decide),
        setIdealDefault_ne _ _ _ (by decide),
        setLipschitz_some _ _ _ _ _ _ _ _ hL]
    · have hcore' := initParsCore_ok_ideal_none astra' rand' pg vg sino d n z kwargs hi
      rw [initPars_shape3 _ _ _ _ _ _ _ _ _ hshape, hcore,
        initPars_shape3 _ _ _ _ _ _ _ _ _ hshape, hcore']
      have e1 : setLipschitz astra rand pg vg z kwargs = setLipschitz astra' rand' pg vg z kwargs := by
        funext p
        unfold setLipschitz
        rw [hL]
      rw [e1]

/-- Witness for C6: with no supplied Lipschitz constant the cached value is
the power-method result on the stored weights. -/
theorem claimC6_witness :
    sino111.shape = [1, 1, 1]
    ∧ kwEmpty "ideal_image" = none
    ∧ kwEmpty "Lipschitz_constant" = none
    ∧ initLookup astraTriv randConst pgCone vgUnit sino111 kwEmpty "Lipschitz_constant" =
        some (PyVal.pyfloat (calculateLipschitzConstantWithPowerMethod astraTriv randConst
          pgCone vgUnit
          (optToArr (initLookup astraTriv randConst pgCone vgUnit sino111 kwEmpty "weights")) 1)) :=
  ⟨rfl, rfl, rfl,
   (claimC6_lipschitz_cached astraTriv astraTriv randConst randConst pgCone vgUnit
     sino111 kwEmpty 1 1 1 rfl rfl).1 rfl⟩

/-- Claim C7 (amended): the ring defaults (`ring_lambda_R_L1 = 0`,
`ring_alpha = 1`) are set only in the branch where a `regularizer` keyword IS
supplied (source lines 134-139); when no regularizer is supplied and the ring
options are absent, the ring keys are not set at all. -/
theorem claimC7_ring_defaults (astra : Astra) (rand : RandOracle)
    (pg : ProjGeom) (vg : VolGeom) (sino : NDArr) (kwargs : Kwargs) (d n z : Nat)
    (hshape : sino.shape = [d, n, z]) (hi : kwargs "ideal_image" = none)
    (h4 : kwargs "ring_lambda_R_L1" = none) (h5 : kwargs "ring_alpha" = none) :
    (∀ v, kwargs "regularizer" = some v →
      initLookup astra rand pg vg sino kwargs "ring_lambda_R_L1" = some (PyVal.pyint 0)
      ∧ initLookup astra rand pg vg sino kwargs "ring_alpha" = some (PyVal.pyint 1))
    ∧ (kwargs "regularizer" = none →
      initLookup astra rand pg vg sino kwargs "ring_lambda_R_L1" = none
      ∧ initLookup astra rand pg vg sino kwargs "ring_alpha" = none) := by
  have hcore := initParsCore_ok_ideal_none astra rand pg vg sino d n z kwargs hi
  constructor
  · intro v hr
    constructor
    · unfold initLookup
      rw [initPars_shape3 _ _ _ _ _ _ _ _ _ hshape, hcore]
      dsimp only
      exact (regularizerStep_ring_defaults kwargs _ v hr h4 h5).1
    · unfold initLookup
      rw [initPars_shape3 _ _ _ _ _ _ _ _ _ hshape, hcore]
      dsimp only
      exact (regularizerStep_ring_defaults kwargs _ v hr h4 h5).2
  · intro hr
    constructor
    · unfold initLookup
      rw [initPars_shape3 _ _ _ _ _ _ _ _ _ hshape, hcore]
      dsimp only
      rw [regularizerStep_reg_none _ _ hr, setKey_ne _ _ _ _ (by decide),
        setIdealDefault_ne _ _ _ (by decide),
        setLipschitz_ne _ _ _ _ _ _ _ _ (by decide),
        setWeightsDefault_ne _ _ _ _ (by decide),
        setIterDefault_ne _ _ _ (by decide),
        applyKwargs_of_none _ _ _ h4]
      simp [setShapeCounts, setKey, initBase]
    · unfold initLookup
      rw [initPars_shape3 _ _ _ _ _ _ _ _ _ hshape, hcore]
      dsimp only
      rw [regularizerStep_reg_none _ _ hr, setKey_ne _ _ _ _ (by decide),
        setIdealDefault_ne _ _ _ (by decide),
        setLipschitz_ne _ _ _ _ _ _ _ _ (by decide),
        setWeightsDefault_ne _ _ _ _ (by decide),
        setIterDefault_ne _ _ _ (by decide),
        applyKwargs_of_none _ _ _ h5]
      simp [setShapeCounts, setKey, initBase]

/-- Witness for C7: with a regularizer supplied and no ring options, the
defaults 0 and 1 are stored. -/
theorem claimC7_witness :
    kwReg "regularizer" = some (PyVal.pyobj "regularizer_handle")
    ∧ initLookup astraTriv randConst pgCone vgUnit sino111 kwReg "ring_lambda_R_L1"
        = some (PyVal.pyint 0)
    ∧ initLookup astraTriv randConst pgCone vgUnit sino111 kwReg "ring_alpha"
        = some (PyVal.pyint 1) :=
  ⟨rfl,
   ((claimC7_ring_defaults astraTriv randConst pgCone vgUnit sino111 kwReg 1 1 1
     rfl rfl rfl rfl).1 _ rfl).1,
   ((claimC7_ring_defaults astraTriv randConst pgCone vgUnit sino111 kwReg 1 1 1
     rfl rfl rfl rfl).1 _ rfl).2⟩

/-- Counterexample to C7 as stated: constructing with a Lipschitz constant and
no other keywords (so the ring options are not supplied) succeeds, but the
parameter set contains NO entry `ring_lambda_R_L1` at all (and none for
`ring_alpha`), because the defaults are only set when a regularizer is
supplied. -/
theorem claimC7_counterexample :
    succeeded (initPars astraTriv randConst pgPar vgUnit sino111 kwLip) = true
    ∧ initLookup astraTriv randConst pgPar vgUnit sino111 kwLip "ring_lambda_R_L1" = none
    ∧ initLookup astraTriv randConst pgPar vgUnit sino111 kwLip "ring_alpha" = none := by
  have hcore := initParsCore_ok_ideal_none astraTriv randConst pgPar vgUnit sino111
    1 1 1 kwLip rfl
  refine ⟨?_, ?_, ?_⟩
  · rw [initPars_shape3 _ _ _ _ _ _ _ _ _ rfl, hcore]
    rfl
  · unfold initLookup
    rw [initPars_shape3 _ _ _ _ _ _ _ _ _ rfl, hcore]
    dsimp only
    rw [regularizerStep_reg_none _ _ rfl, setKey_ne _ _ _ _ (by decide),
      setIdealDefault_ne _ _ _ (by decide),
      setLipschitz_ne _ _ _ _ _ _ _ _ (by decide),
      setWeightsDefault_ne _ _ _ _ (by decide),
      setIterDefault_ne _ _ _ (by decide),
      applyKwargs_of_none _ _ _ rfl]
    simp [setShapeCounts, setKey, initBase]
  · unfold initLookup
    rw [initPars_shape3 _ _ _ _ _ _ _ _ _ rfl, hcore]
    dsimp only
    rw [regularizerStep_reg_none _ _ rfl, setKey_ne _ _ _ _ (by decide),
      setIdealDefault_ne _ _ _ (by decide),
      setLipschitz_ne _ _ _ _ _ _ _ _ (by decide),
      setWeightsDefault_ne _ _ _ _ (by decide),
      setIterDefault_ne _ _ _ (by decide),
      applyKwargs_of_none _ _ _ rfl]
    simp [setShapeCounts, setKey, initBase]

/-- Claim C8: supplying an `ideal_image` numpy array with more than one
element and no `region_of_interest` keyword makes the guard
`if self.pars['ideal_image'] == None:` raise (elementwise comparison followed
by ambiguous truth value of a multi-element array), so construction fails and
the automatic `nonzero(ideal_image > 0)` derivation is unreachable; with an
explicit `region_of_interest` supplied the block is skipped and construction
succeeds. -/
theorem claimC8_ideal_image_guard (astra : Astra) (rand : RandOracle)
    (pg : ProjGeom) (vg : VolGeom) (sino : NDArr) (kwargs : Kwargs) (a : NDArr)
    (d n z : Nat) (hshape : sino.shape = [d, n, z])
    (hideal : kwargs "ideal_image" = some (PyVal.pyarr a)) (hsize : 1 < ndSize a) :
    (kwargs "region_of_interest" = none →
      initPars astra rand pg vg sino kwargs = Except.error (PyErr.valueError
        "The truth value of an array with more than one element is ambiguous"))
    ∧ (∀ v, kwargs "region_of_interest" = some v →
        succeeded (initPars astra rand pg vg sino kwargs) = true) := by
  constructor
  · intro hroi
    rw [initPars_shape3 _ _ _ _ _ _ _ _ _ hshape,
      initParsCore_ambiguous _ _ _ _ _ _ _ _ _ _ hroi hideal hsize]
  · intro v hroi
    rw [initPars_shape3 _ _ _ _ _ _ _ _ _ hshape,
      initParsCore_ok_roi_some _ _ _ _ _ _ _ _ _ _ hroi]
    rfl

/-- Witness for C8: a two-element ideal image without a region of interest
raises; adding an explicit region of interest makes construction succeed. -/
theorem claimC8_witness :
    1 < ndSize idealArr
    ∧ initPars astraTriv randConst pgCone vgUnit sino111 kwIdeal =
        Except.error (PyErr.valueError
          "The truth value of an array with more than one element is ambiguous")
    ∧ succeeded (initPars astraTriv randConst pgCone vgUnit sino111 kwIdealRoi) = true :=
  ⟨by decide,
   (claimC8_ideal_image_guard astraTriv randConst pgCone vgUnit sino111 kwIdeal
     idealArr 1 1 1 rfl rfl (by decide)).1 rfl,
   (claimC8_ideal_image_guard astraTriv randConst pgCone vgUnit sino111 kwIdealRoi
     idealArr 1 1 1 rfl rfl (by decide)).2 _ rfl⟩

/-- Claim C9: a keyword argument whose name is not among the nine accepted
keywords has no effect whatsoever on construction — the constructed result is
identical to the one without it (so the option is not stored and no error is
raised). -/
theorem claimC9_unrecognized_ignored (astra : Astra) (rand : RandOracle)
    (pg : ProjGeom) (vg : VolGeom) (sino : NDArr) (kwargs : Kwargs)
    (key : String) (v : PyVal) (hkey : ¬ key ∈ kwAccepted)
    (hnone : kwargs key = none) :
    initPars astra rand pg vg sino (insertKw kwargs key v) =
      initPars astra rand pg vg sino kwargs := by
  have hne : ∀ ℓ, ℓ ∈ kwAccepted → insertKw kwargs key v ℓ = kwargs ℓ := by
    intro ℓ hm
    unfold insertKw
    rw [if_neg]
    intro he
    exact hkey (he ▸ hm)
  have e2 : ∀ p : Pars, applyKwargs (insertKw kwargs key v) p = applyKwargs kwargs p := by
    intro p
    funext k
    by_cases hk : k = key
    · subst hk
      unfold applyKwargs insertKw
      rw [if_pos rfl, hnone]
      simp [hkey]
    · unfold applyKwargs insertKw
      rw [if_neg hk]
  have e3 : setIterDefault (insertKw kwargs key v) = setIterDefault kwargs := by
    funext p
    unfold setIterDefault
    rw [hne _ (by decide)]
  have e4 : ∀ s, setWeightsDefault (insertKw kwargs key v) s = setWeightsDefault kwargs s := by
    intro s
    funext p
    unfold setWeightsDefault
    rw [hne _ (by decide)]
  have e5' : ∀ z', setLipschitz astra rand pg vg z' (insertKw kwargs key v) =
      setLipschitz astra rand pg vg z' kwargs := by
    intro z'
    funext p
    unfold setLipschitz
    rw [hne _ (by decide)]
  have e6 : setIdealDefault (insertKw kwargs key v) = setIdealDefault kwargs := by
    funext p
    unfold setIdealDefault
    rw [hne _ (by decide)]
  have e7 : roiStep (insertKw kwargs key v) = roiStep kwargs := by
    funext p
    unfold roiStep
    rw [hne _ (by decide)]
  have e8 : regularizerStep (insertKw kwargs key v) = regularizerStep kwargs := by
    funext p
    unfold regularizerStep
    rw [hne _ (by decide), hne _ (by decide), hne _ (by decide)]
  unfold initPars
  cases sino.shape with
  | nil => rfl
  | cons a t =>
    cases t with
    | nil => rfl
    | cons b t2 =>
      cases t2 with
      | nil => rfl
      | cons c t3 =>
        cases t3 with
        | nil =>
          unfold initParsCore
          dsimp only
          rw [e2, e3, e4, e5', e6, e7, e8]
        | cons e t4 => rfl

/-- Witness for C9: adding the unrecognized keyword `number_of_slices` leaves
the constructed parameter set unchanged. -/
theorem claimC9_witness :
    ¬ "number_of_slices" ∈ kwAccepted
    ∧ kwLip "number_of_slices" = none
    ∧ initPars astraTriv randConst pgCone vgUnit sino111
        (insertKw kwLip "number_of_slices" (PyVal.pyint 7)) =
      initPars astraTriv randConst pgCone vgUnit sino111 kwLip :=
  ⟨by decide, rfl,
   claimC9_unrecognized_ignored astraTriv randConst pgCone vgUnit sino111 kwLip
     "number_of_slices" (PyVal.pyint 7) (by decide) rfl⟩

/-- Claim C10: the constructor unpacks `numpy.shape(input_sinogram)` into
three names; any sinogram whose number of dimensions is not 3 raises the
unpacking `ValueError`, and for a 3-D sinogram the three dimensions are stored
as `detectors`, `number_og_angles` and `SlicesZ`. -/
theorem claimC10_sinogram_3d (astra : Astra) (rand : RandOracle)
    (pg : ProjGeom) (vg : VolGeom) (kwargs : Kwargs) :
    (∀ sino : NDArr, sino.shape.length ≠ 3 →
      initPars astra rand pg vg sino kwargs =
        Except.error (PyErr.valueError "not enough values to unpack"))
    ∧ (∀ (sino : NDArr) (d n z : Nat), sino.shape = [d, n, z] →
        succeeded (initPars astra rand pg vg sino kwargs) = true →
        initLookup astra rand pg vg sino kwargs "detectors" = some (PyVal.pyint d)
        ∧ initLookup astra rand pg vg sino kwargs "number_og_angles" = some (PyVal.pyint n)
        ∧ initLookup astra rand pg vg sino kwargs "SlicesZ" = some (PyVal.pyint z)) := by
  constructor
  · intro sino h
    exact initPars_shape_err _ _ _ _ _ _ h
  · intro sino d n z hshape hok
    unfold initLookup
    rw [initPars_shape3 _ _ _ _ _ _ _ _ _ hshape] at hok ⊢
    unfold initParsCore at hok ⊢
    dsimp only at hok ⊢
    split at hok
    · simp [succeeded] at hok
    · rename_i p7 hsplit
      dsimp only
      have hkey : ∀ k : String, k ≠ "regularizer" → k ≠ "ring_lambda_R_L1" →
          k ≠ "ring_alpha" → k ≠ "region_of_interest" → k ≠ "ideal_image" →
          k ≠ "Lipschitz_constant" → k ≠ "weights" → k ≠ "number_of_iterations" →
          ¬ k ∈ kwAccepted →
          (regularizerStep kwargs p7) k =
            (setShapeCounts (initBase pg vg sino) d n z) k := by
        intro k k1 k2 k3 k4 k5 k6 k7 k8 k9
        rw [regularizerStep_ne _ _ _ k1 k2 k3,
          roiStep_ok_ne _ _ _ _ hsplit k4,
          setIdealDefault_ne _ _ _ k5,
          setLipschitz_ne _ _ _ _ _ _ _ _ k6,
          setWeightsDefault_ne _ _ _ _ k7,
          setIterDefault_ne _ _ _ k8,
          applyKwargs_not_mem _ _ _ k9]
      refine ⟨?_, ?_, ?_⟩
      · rw [hkey "detectors" (by decide) (by decide) (by decide) (by decide)
          (by decide) (by decide) (by decide) (by decide) (by decide)]
        simp [setShapeCounts, setKey]
      · rw [hkey "number_og_angles" (by decide) (by decide) (by decide) (by decide)
          (by decide) (by decide) (by decide) (by decide) (by decide)]
        simp [setShapeCounts, setKey]
      · rw [hkey "SlicesZ" (by decide) (by decide) (by decide) (by decide)
          (by decide) (by decide) (by decide) (by decide) (by decide)]
        simp [setShapeCounts, setKey]

/-- Witness for C10: a 2-D array raises the unpacking error; a 3-D sinogram of
shape (2,2,2) stores `detectors = 2`. -/
theorem claimC10_witness :
    sino22.shape.length ≠ 3
    ∧ initPars astraTriv randConst pgCone vgUnit sino22 kwEmpty =
        Except.error (PyErr.valueError "not enough values to unpack")
    ∧ initLookup astraTriv randConst pgCone vgUnit sino222 kwLip "detectors"
        = some (PyVal.pyint 2) :=
  ⟨by decide,
   (claimC10_sinogram_3d astraTriv randConst pgCone vgUnit kwEmpty).1 sino22 (by decide),
   ((claimC10_sinogram_3d astraTriv randConst pgCone vgUnit kwLip).2 sino222 2 2 2
     rfl rfl).1⟩

end CCPiFista
